import Mathlib

/-!
Verification of the retrieval ranking pipeline.

This file shallowly embeds the ranking pipeline of the repository:
keyword extraction and lexical scoring (hybrid_search.py), the hybrid
scorer (hybrid_search.py), the cross-encoder reranker wrapper
(reranker.py), the orchestrating retrieval portion of RAGEngine.query
(rag_engine.py, lines 151-171), and the fallback linear cosine
similarity scan of the vector store (vector_store.py, lines 183-238).

Modelling conventions:
- Python strings are List Char; Python floats are rationals, except the
  result of math.sqrt which is a real number.
- The vector store is an abstract function from (query, count) to a list
  of candidate documents, since its network side is out of scope.
- Python dict candidates are the structure Doc; a key that may be absent
  is an Option field.
- The cross-encoder model handle is CrossModel; a failing inference call
  is predict returning none.  A loaded CrossEncoder returns one score
  per input pair, recorded as the field predict_length.
- Python list.sort with a key and reverse=True is the stable descending
  insertion sort pySortDesc.
-/

/-- Characters the Python str.split() default treats as whitespace. -/
def isWsChar (c : Char) : Bool :=
  c == ' ' || c == '\t' || c == '\n' || c == '\r' || c == '\x0b' || c == '\x0c'

/-- Convenience conversion from a string literal to the character-list model. -/
def chars (s : String) : List Char := s.toList

/-- Python str.strip(): drop leading and trailing whitespace. -/
def pyStrip (l : List Char) : List Char :=
  ((l.dropWhile isWsChar).reverse.dropWhile isWsChar).reverse

/-- Helper for splitWs: accumulates the current word (reversed) while scanning. -/
def splitWsAux : List Char → List Char → List (List Char)
  | [], acc => if acc = [] then [] else [acc.reverse]
  | c :: t, acc =>
    if isWsChar c then
      (if acc = [] then splitWsAux t [] else acc.reverse :: splitWsAux t [])
    else
      splitWsAux t (c :: acc)

/-- Python str.split() with no argument: split on whitespace runs, dropping empties. -/
def splitWs (l : List Char) : List (List Char) := splitWsAux l []

/-- The French stop-word set of extract_keywords (hybrid_search.py lines 72-82),
in source order; the Python set literal repeats a few entries, which does not
change membership. -/
def stopwords : List (List Char) :=
  [chars "le", chars "la", chars "les", chars "un", chars "une", chars "des",
   chars "de", chars "du", chars "à", chars "au", chars "aux",
   chars "et", chars "ou", chars "mais", chars "donc", chars "car", chars "ni",
   chars "que", chars "qui", chars "quoi", chars "dont",
   chars "ce", chars "cet", chars "cette", chars "ces", chars "mon", chars "ton",
   chars "son", chars "ma", chars "ta", chars "sa",
   chars "mes", chars "tes", chars "ses", chars "notre", chars "votre",
   chars "leur", chars "nos", chars "vos", chars "leurs",
   chars "je", chars "tu", chars "il", chars "elle", chars "on", chars "nous",
   chars "vous", chars "ils", chars "elles",
   chars "est", chars "sont", chars "suis", chars "sommes", chars "êtes",
   chars "être", chars "avoir", chars "a", chars "as",
   chars "qu", chars "c", chars "d", chars "l", chars "s", chars "n",
   chars "m", chars "t", chars "y",
   chars "que", chars "quoi", chars "quel", chars "quelle", chars "quels",
   chars "quelles",
   chars "sur", chars "sous", chars "dans", chars "par", chars "pour",
   chars "avec", chars "sans"]

/-- The token filter of extract_keywords (hybrid_search.py line 86):
w.strip() is nonempty, not a stop word, and len(w) > 2. -/
def keywordKeep (w : List Char) : Bool :=
  decide (pyStrip w ≠ []) && decide (pyStrip w ∉ stopwords) && decide (2 < w.length)

/-- extract_keywords (hybrid_search.py lines 69-88): lowercase the query, delete
the characters ? and ! (str.replace with an empty replacement removes every
occurrence), split on whitespace, keep tokens passing the filter, and return
the stripped tokens as a list (not a set: duplicates are kept). -/
def extract_keywords (query : List Char) : List (List Char) :=
  let cleaned := ((query.map Char.toLower).filter (fun c => c != '?')).filter
    (fun c => c != '!')
  let words := splitWs cleaned
  (words.filter keywordKeep).map pyStrip

/-- Fuel-indexed core of Python str.count: counts non-overlapping occurrences of
a nonempty needle, advancing past each match.  The fuel is the length of the
text, which bounds the number of scanning steps, keeping the recursion
structural. -/
def countOccsFuel (needle : List Char) : Nat → List Char → Nat
  | _, [] => 0
  | 0, _ => 0
  | fuel + 1, c :: rest =>
    if needle.isPrefixOf (c :: rest) then
      1 + countOccsFuel needle fuel (List.drop (needle.length - 1) rest)
    else
      countOccsFuel needle fuel rest

/-- Python text.count(needle): non-overlapping substring occurrences; an empty
needle counts len(text) + 1 positions, as in Python. -/
def countOccs (needle hay : List Char) : Nat :=
  if needle = [] then hay.length + 1 else countOccsFuel needle hay.length hay

/-- calculate_keyword_score (hybrid_search.py lines 91-108): 0.0 for an empty
keyword list; otherwise sum the case-insensitive occurrence counts of each
keyword in the text and divide by the number of keywords (with multiplicity),
clamped to 1.0. -/
def calculate_keyword_score (text : List Char) (keywords : List (List Char)) : ℚ :=
  if keywords = [] then 0
  else
    let text_lower := text.map Char.toLower
    let total_matches :=
      (keywords.map (fun kw => countOccs (kw.map Char.toLower) text_lower)).sum
    min ((total_matches : ℚ) / (keywords.length : ℚ)) 1

/-- A candidate document dict flowing through the pipeline.  Optional fields
model dict keys that may be absent. -/
structure Doc where
  content : List Char
  similarity : Option ℚ
  keyword_score : Option ℚ
  hybrid_score : Option ℚ
  rerank_score : Option ℚ
deriving DecidableEq

/-- The per-candidate scoring step of hybrid_search (hybrid_search.py lines
44-56): semantic score doc.get('similarity', 0.5), keyword score from the
query keywords, and the weighted hybrid combination; both computed scores are
recorded on the document. -/
def scoreDoc (keywords : List (List Char)) (keyword_boost : ℚ) (doc : Doc) : Doc :=
  let semantic_score := doc.similarity.getD (1 / 2)
  let keyword_score := calculate_keyword_score doc.content keywords
  let combined_score := (1 - keyword_boost) * semantic_score
    + keyword_boost * keyword_score
  ⟨doc.content, doc.similarity, some keyword_score, some combined_score,
    doc.rerank_score⟩

/-- Erase every score field added by the pipeline stages, keeping the
candidate identity (content and retrieval similarity). -/
def stripAdded (d : Doc) : Doc := ⟨d.content, d.similarity, none, none, none⟩

/-- Stable descending insertion for pySortDesc: an element is placed before the
first element with a strictly smaller key, so earlier elements win ties. -/
def insertDescBy {α : Type} (key : α → ℚ) (x : α) : List α → List α
  | [] => [x]
  | y :: ys => if key y ≤ key x then x :: y :: ys else y :: insertDescBy key x ys

/-- Python list.sort(key=..., reverse=True): stable sort into descending key
order, preserving the original order among equal keys. -/
def pySortDesc {α : Type} (key : α → ℚ) (l : List α) : List α :=
  l.foldr (insertDescBy key) []

/-- hybrid_search.py line 32: top_k = int(top_k) if top_k else 20, i.e. a falsy
(zero) top_k is replaced by the default 20. -/
def hybridTopK (top_k : ℕ) : ℕ := if top_k ≠ 0 then top_k else 20

/-- hybrid_search (hybrid_search.py lines 11-66): fetch 2 * top_k candidates
from the vector store (after the falsy-default adjustment of top_k), score
each candidate against the query keywords, sort by hybrid score descending
(stable), and truncate to top_k. -/
def hybrid_search (store : List Char → ℕ → List Doc) (query : List Char)
    (top_k : ℕ) (keyword_boost : ℚ) : List Doc :=
  let top_k' := hybridTopK top_k
  let semantic_results := store query (2 * top_k')
  let keywords := extract_keywords query
  let scored_results := semantic_results.map (scoreDoc keywords keyword_boost)
  (pySortDesc (fun d => d.hybrid_score.getD 0) scored_results).take top_k'

/-- The count passed to VectorStore.similarity_search when RAGEngine.query runs
with a given top_k: RAGEngine.query calls hybrid_search with top_k * 2
(rag_engine.py line 154), and hybrid_search requests twice its (falsy-default
adjusted) top_k (hybrid_search.py line 36). -/
def rankFetchCount (top_k : ℕ) : ℕ := 2 * hybridTopK (top_k * 2)

/-- A loaded cross-encoder model handle.  predict none models a runtime
inference failure (the except branch of ReRanker.rerank); a successful
CrossEncoder.predict returns one score per input pair. -/
structure CrossModel where
  predict : List (List Char × List Char) → Option (List ℚ)
  predict_length : ∀ pairs scores, predict pairs = some scores →
    scores.length = pairs.length

/-- ReRanker (reranker.py): model is none when construction failed
(Unavailable), some when loaded (Ready); decided once at startup. -/
structure ReRanker where
  model : Option CrossModel

/-- ReRanker.rerank (reranker.py lines 47-90): with no model or no documents,
return documents[:top_k]; otherwise score the pairs (query, first 512 chars of
content), attach rerank scores, sort descending by rerank score and truncate;
on a runtime inference failure fall back to documents[:top_k]. -/
def ReRanker.rerank (r : ReRanker) (query : List Char) (documents : List Doc)
    (top_k : ℕ) : List Doc :=
  match r.model with
  | none => documents.take top_k
  | some m =>
    if documents = [] then documents.take top_k
    else
      match m.predict (documents.map (fun d => (query, d.content.take 512))) with
      | none => documents.take top_k
      | some scores =>
        let documents' := (documents.zip scores).map
          (fun p => ⟨p.1.content, p.1.similarity, p.1.keyword_score,
            p.1.hybrid_score, some p.2⟩)
        (pySortDesc (fun d => d.rerank_score.getD 0) documents').take top_k

/-- The retrieval-and-ranking portion of RAGEngine.query (rag_engine.py lines
151-171), the spec's rank operation: hybrid search with top_k * 2 and
keyword_boost 0.6; an empty candidate list is returned as an empty result; the
reranker runs only when its model is loaded. -/
def RAGEngine.queryDocs (store : List Char → ℕ → List Doc) (reranker : ReRanker)
    (question : List Char) (top_k : ℕ) : List Doc :=
  let relevant_docs := hybrid_search store question (top_k * 2) (3 / 5)
  if relevant_docs = [] then []
  else
    match reranker.model with
    | some _ => reranker.rerank question relevant_docs top_k
    | none => relevant_docs

/-- Ranking a candidate pool by semantic score alone: stable descending sort
on doc.get('similarity', 0.5), ties keeping retrieval order, truncated to the
requested size.  This follows the spec's wording of semantic-only ranking and
is compared against hybrid_search with keyword_boost 0. -/
def semanticOnlyRank (pool : List Doc) (top_k : ℕ) : List Doc :=
  (pySortDesc (fun d => d.similarity.getD (1 / 2)) pool).take top_k

/-! Embedding of the fallback linear similarity scan of
VectorStore.similarity_search and VectorStore._cosine_similarity
(vector_store.py lines 183-238).  Stored embedding values are dynamically
typed in Python; PyItem and PyEmbedding model the shapes the code can meet. -/

/-- An element of a stored embedding list: a numeric value, or any
non-numeric value, on which Python float(...) raises. -/
inductive PyItem
  | num (value : ℚ)
  | other
deriving DecidableEq

/-- A stored (truthy) embedding value: a Python list of items, a JSON string
that parses to a list of items, or any other non-list value (for which the
isinstance check of _cosine_similarity fails). -/
inductive PyEmbedding
  | pyList (items : List PyItem)
  | jsonStr (items : List PyItem)
  | nonList
deriving DecidableEq

/-- A raw record of the documents table as seen by the fallback scan. -/
structure StoredDoc where
  sid : ℕ
  content : List Char
  embedding : Option PyEmbedding
deriving DecidableEq

/-- Python float(x) on an embedding element: numeric values convert,
anything else raises. -/
def pyFloat : PyItem → Except Unit ℚ
  | .num v => .ok v
  | .other => .error ()

/-- sum(float(a) * float(b) for a, b in zip(vec1, vec2)): zip truncates to the
shorter vector; the first non-numeric element raises. -/
def dotProduct : List ℚ → List PyItem → Except Unit ℚ
  | _, [] => .ok 0
  | [], _ => .ok 0
  | a :: xs, b :: ys => do
    let fb ← pyFloat b
    let rest ← dotProduct xs ys
    pure (a * fb + rest)

/-- sum(float(b) * float(b) for b in vec): the radicand of magnitude2; the
first non-numeric element raises. -/
def sumSquaresP : List PyItem → Except Unit ℚ
  | [] => .ok 0
  | b :: ys => do
    let fb ← pyFloat b
    let rest ← sumSquaresP ys
    pure (fb * fb + rest)

/-- The conversion prefix of _cosine_similarity (vector_store.py lines
220-229): a JSON string is parsed to its list; a list stays; any other value
fails the isinstance check and is reported as no list at all. -/
def embList : PyEmbedding → Option (List PyItem)
  | .pyList l => some l
  | .jsonStr l => some l
  | .nonList => none

open Classical in
/-- VectorStore._cosine_similarity (vector_store.py lines 215-238) applied to
the numeric query embedding and a stored embedding value: a non-list value
scores 0.0; otherwise the dot product and magnitudes are computed (raising on
any non-numeric element, modelled as Except.error), a zero magnitude scores
0.0,
and otherwise the cosine ratio is returned. -/
noncomputable def cosine_similarity (vec1 : List ℚ) (emb : PyEmbedding) :
    Except Unit ℝ :=
  match embList emb with
  | none => .ok 0
  | some vec2 => do
    let dot ← dotProduct vec1 vec2
    let s2 ← sumSquaresP vec2
    let magnitude1 := Real.sqrt (((vec1.map (fun a => a * a)).sum : ℚ) : ℝ)
    let magnitude2 := Real.sqrt ((s2 : ℚ) : ℝ)
    if magnitude1 = 0 ∨ magnitude2 = 0 then pure 0
    else pure ((dot : ℝ) / (magnitude1 * magnitude2))

/-- Truthiness of doc.get('embedding') (vector_store.py line 201): absent
values and the empty list are falsy and the record is skipped; nonempty lists,
JSON strings and other non-list values are truthy. -/
def embTruthy : Option PyEmbedding → Bool
  | none => false
  | some (.pyList []) => false
  | some (.pyList (_ :: _)) => true
  | some (.jsonStr _) => true
  | some .nonList => true

/-- The fallback linear similarity scan (vector_store.py lines 199-208): walk
the stored records in order, skipping records with a falsy embedding, and pair
each remaining record with its computed cosine similarity; an exception from
_cosine_similarity propagates and aborts the whole scan. -/
noncomputable def scanResults (query_embedding : List ℚ) :
    List StoredDoc → Except Unit (List (StoredDoc × ℝ))
  | [] => .ok []
  | d :: rest =>
    match d.embedding with
    | some e =>
      if embTruthy (some e) then do
        let s ← cosine_similarity query_embedding e
        let tail ← scanResults query_embedding rest
        pure ((d, s) :: tail)
      else scanResults query_embedding rest
    | none => scanResults query_embedding rest

/-! Concrete instances used by counterexamples and witnesses. -/

/-- A candidate with full retrieval similarity. -/
def dA : Doc := ⟨chars "alpha", some 1, none, none, none⟩

/-- A candidate with retrieval similarity one half. -/
def dB : Doc := ⟨chars "beta", some (1 / 2), none, none, none⟩

/-- A candidate carrying no similarity key. -/
def dNoSim : Doc := ⟨chars "gamma", none, none, none, none⟩

/-- A two-document vector store answering every request. -/
def store2 : List Char → ℕ → List Doc := fun _ _ => [dA, dB]

/-- A store that has results only for a request of exactly 4 candidates. -/
def store4only : List Char → ℕ → List Doc := fun _ n => if n = 4 then [dA] else []

/-- A store with no documents at all. -/
def storeNone : List Char → ℕ → List Doc := fun _ _ => []

/-- A loaded cross-encoder whose every inference call fails at runtime. -/
def failModel : CrossModel :=
  ⟨fun _ => none, fun _ _ h => Option.noConfusion h⟩

/-- A stored record whose embedding list contains a non-numeric element. -/
def badDoc : StoredDoc := ⟨0, chars "bad", some (.pyList [.other])⟩

/-- A stored record with a well-formed one-dimensional embedding. -/
def goodDoc : StoredDoc := ⟨1, chars "good", some (.pyList [.num 1])⟩

/-- A stored record whose embedding is a truthy non-list value. -/
def nonListDoc : StoredDoc := ⟨2, chars "weird", some .nonList⟩

/-! Helper lemmas. -/

theorem take_len_le {α : Type} (n : ℕ) (l : List α) : (l.take n).length ≤ n := by
  rw [List.length_take]
  exact min_le_left _ _

theorem rerank_length_le (r : ReRanker) (q : List Char) (docs : List Doc)
    (k : ℕ) : (ReRanker.rerank r q docs k).length ≤ k := by
  obtain ⟨_ | m⟩ := r
  · exact take_len_le k docs
  · simp only [ReRanker.rerank]
    by_cases hd : docs = []
    · rw [if_pos hd]
      exact take_len_le k docs
    · rw [if_neg hd]
      rcases hp : m.predict (docs.map fun d => (q, d.content.take 512)) with _ | s <;>
        simp only [hp] <;> exact take_len_le k _

theorem hybrid_search_length_le (store : List Char → ℕ → List Doc)
    (q : List Char) (t : ℕ) (b : ℚ) :
    (hybrid_search store q t b).length ≤ hybridTopK t := by
  simp only [hybrid_search]
  exact take_len_le _ _

theorem rerank_take_zero (r : ReRanker) (q : List Char) (docs : List Doc) :
    ReRanker.rerank r q docs 0 = [] := by
  obtain ⟨_ | m⟩ := r
  · rfl
  · simp only [ReRanker.rerank]
    by_cases hd : docs = []
    · rw [if_pos hd]
      rfl
    · rw [if_neg hd]
      rcases hp : m.predict (docs.map fun d => (q, d.content.take 512)) with _ | s <;>
        simp [hp]

/-- Claim C5: for every chunk text T and nonempty keyword list K the lexical
score lies in the closed interval from 0 to 1, and the lexical score with the
empty keyword list is exactly 0. -/
theorem claim_C5 :
    (∀ (T : List Char) (K : List (List Char)), K ≠ [] →
        0 ≤ calculate_keyword_score T K ∧ calculate_keyword_score T K ≤ 1) ∧
    (∀ T : List Char, calculate_keyword_score T [] = 0) := by
  constructor
  · intro T K hK
    simp only [calculate_keyword_score, if_neg hK]
    constructor
    · apply le_min
      · apply div_nonneg <;> positivity
      · norm_num
    · exact min_le_right _ _
  · intro T
    simp [calculate_keyword_score]

/-- Witness for claim C5 at a concrete text and keyword list. -/
theorem claim_C5_witness :
    [chars "chat"] ≠ ([] : List (List Char)) ∧
    (0 ≤ calculate_keyword_score (chars "le chat") [chars "chat"] ∧
      calculate_keyword_score (chars "le chat") [chars "chat"] ≤ 1) :=
  ⟨by decide, claim_C5.1 (chars "le chat") [chars "chat"] (by decide)⟩

/-- Counterexample to claim C6: the keyword extractor is not a set; the query
built of the word chat twice yields the term chat twice. -/
theorem claim_C6_counterexample :
    extract_keywords (chars "chat chat") = [chars "chat", chars "chat"] ∧
    ¬ (extract_keywords (chars "chat chat")).Nodup := by
  constructor <;> decide

/-- Claim C6 (amended): the keyword list may contain a term several times and
the lexical scorer divides by its length counted with multiplicity; hence
repeating the whole keyword list never changes a lexical score. -/
theorem claim_C6_amended : ∀ (T : List Char) (K : List (List Char)),
    calculate_keyword_score T (K ++ K) = calculate_keyword_score T K := by
  intro T K
  by_cases hK : K = []
  · subst hK
    rfl
  · have hKK : K ++ K ≠ [] := by simp [hK]
    simp only [calculate_keyword_score, if_neg hK, if_neg hKK]
    congr 1
    rw [List.map_append, List.sum_append, List.length_append]
    have h1 : (0 : ℚ) < (K.length : ℚ) := by
      exact_mod_cast List.length_pos.mpr hK
    have h2 : (0 : ℚ) < (K.length : ℚ) + (K.length : ℚ) := by linarith
    push_cast
    rw [div_eq_div_iff h2.ne' h1.ne']
    ring

theorem insertDescBy_map {α β : Type} (key : β → ℚ) (f : α → β) (x : α)
    (l : List α) :
    insertDescBy key (f x) (l.map f) = (insertDescBy (fun a => key (f a)) x l).map f := by
  induction l with
  | nil => rfl
  | cons y ys ih =>
    by_cases h : key (f y) ≤ key (f x)
    · simp [insertDescBy, h]
    · simp [insertDescBy, h, ih]

theorem pySortDesc_map {α β : Type} (key : β → ℚ) (f : α → β) (l : List α) :
    pySortDesc key (l.map f) = (pySortDesc (fun a => key (f a)) l).map f := by
  induction l with
  | nil => rfl
  | cons y ys ih =>
    simp only [pySortDesc, List.map_cons, List.foldr_cons] at *
    rw [ih]
    exact insertDescBy_map key f y (List.foldr (insertDescBy fun a => key (f a)) [] ys)

theorem stripAdded_scoreDoc (kws : List (List Char)) (b : ℚ) (d : Doc) :
    stripAdded (scoreDoc kws b d) = stripAdded d := rfl

/-- Claim C9: with keyword_boost 0, the hybrid ranking of any candidate pool is
the semantic-only ranking: the hybrid stage output, with its added score
fields erased, equals the stable descending sort of the pool by the semantic
score (ties keeping retrieval order), truncated at the effective top_k. -/
theorem claim_C9 : ∀ (pool : List Doc) (q : List Char) (k : ℕ),
    (hybrid_search (fun _ _ => pool) q k 0).map stripAdded =
      (semanticOnlyRank pool (hybridTopK k)).map stripAdded := by
  intro pool q k
  simp only [hybrid_search, semanticOnlyRank]
  rw [pySortDesc_map]
  have hkey : (fun a : Doc => ((scoreDoc (extract_keywords q) 0 a).hybrid_score.getD 0))
      = fun d : Doc => d.similarity.getD (1 / 2) := by
    funext d
    simp [scoreDoc]
  rw [hkey, ← List.map_take, List.map_map]
  have hcomp : stripAdded ∘ scoreDoc (extract_keywords q) 0 = stripAdded :=
    funext fun d => stripAdded_scoreDoc (extract_keywords q) 0 d
  rw [hcomp]

/-- Claim C10: a candidate arriving without a similarity key is scored with
semantic score one half: the scoring step records keyword score and the hybrid
combination computed from 1/2. -/
theorem claim_C10 : ∀ (keywords : List (List Char)) (b : ℚ) (d : Doc),
    d.similarity = none →
    scoreDoc keywords b d = ⟨d.content, d.similarity,
      some (calculate_keyword_score d.content keywords),
      some ((1 - b) * (1 / 2) + b * calculate_keyword_score d.content keywords),
      d.rerank_score⟩ := by
  intro kws b d h
  simp [scoreDoc, h]

/-- Witness for claim C10 at a concrete candidate without a similarity key. -/
theorem claim_C10_witness :
    dNoSim.similarity = none ∧
    scoreDoc [] (3 / 5) dNoSim = ⟨chars "gamma", none, some 0, some (1 / 5), none⟩ := by
  refine ⟨rfl, ?_⟩
  rw [claim_C10 [] (3 / 5) dNoSim rfl]
  norm_num [calculate_keyword_score, dNoSim]

/-- Counterexample to claim C1: with the reranker Unavailable and top_k = 1,
the rank operation returns 2 candidates, exceeding top_k. -/
theorem claim_C1_counterexample :
    (RAGEngine.queryDocs store2 ⟨none⟩ (chars "") 1).length = 2 ∧ ¬ ((2 : ℕ) ≤ 1) := by
  constructor
  · norm_num [RAGEngine.queryDocs, hybrid_search, hybridTopK, store2, dA, dB,
      scoreDoc, extract_keywords, splitWs, splitWsAux, calculate_keyword_score,
      pySortDesc, insertDescBy, Option.getD, List.cons_ne_nil]
  · norm_num

/-- Claim C1 (amended): the rank operation returns at most top_k candidates
when the reranker is Ready; when it is Unavailable the rerank truncation is
skipped and the bound is 2 * top_k (for a positive top_k). -/
theorem claim_C1_amended :
    (∀ (store : List Char → ℕ → List Doc) (q : List Char) (k : ℕ) (m : CrossModel),
        (RAGEngine.queryDocs store ⟨some m⟩ q k).length ≤ k) ∧
    (∀ (store : List Char → ℕ → List Doc) (q : List Char) (k : ℕ), 1 ≤ k →
        (RAGEngine.queryDocs store ⟨none⟩ q k).length ≤ 2 * k) := by
  constructor
  · intro store q k m
    simp only [RAGEngine.queryDocs]
    split
    · simp
    · exact rerank_length_le ⟨some m⟩ q _ k
  · intro store q k hk
    simp only [RAGEngine.queryDocs]
    split
    · simp
    · have h := hybrid_search_length_le store q (k * 2) (3 / 5)
      have h2 : hybridTopK (k * 2) = k * 2 := by
        rw [hybridTopK, if_pos (by omega)]
      omega

/-- Witness for claim C1 at a concrete store, model and top_k. -/
theorem claim_C1_witness :
    (RAGEngine.queryDocs store2 ⟨some failModel⟩ (chars "") 1).length ≤ 1 ∧
    (1 ≤ 1 ∧ (RAGEngine.queryDocs store2 ⟨none⟩ (chars "") 1).length ≤ 2 * 1) :=
  ⟨claim_C1_amended.1 store2 (chars "") 1 failModel,
   by norm_num, claim_C1_amended.2 store2 (chars "") 1 (by norm_num)⟩

/-- Counterexample to claim C2: with the reranker Unavailable, the rank
operation invoked with top_k = 0 returns a nonempty result (the 0 is replaced
by the hybrid stage default 20). -/
theorem claim_C2_counterexample :
    RAGEngine.queryDocs store2 ⟨none⟩ (chars "") 0 ≠ [] := by
  norm_num [RAGEngine.queryDocs, hybrid_search, hybridTopK, store2, dA, dB,
    scoreDoc, extract_keywords, splitWs, splitWsAux, calculate_keyword_score,
    pySortDesc, insertDescBy, Option.getD, List.cons_ne_nil]

/-- Claim C2 (amended): top_k = 0 does not short-circuit the pipeline; the
hybrid stage treats it as the default 20 (behaving exactly as top_k = 20),
and the final result is empty only when the reranker is Ready, whose final
truncation to 0 empties the list after the downstream stages run. -/
theorem claim_C2_amended :
    (∀ (store : List Char → ℕ → List Doc) (q : List Char) (m : CrossModel),
        RAGEngine.queryDocs store ⟨some m⟩ q 0 = []) ∧
    (∀ (store : List Char → ℕ → List Doc) (q : List Char) (b : ℚ),
        hybrid_search store q 0 b = hybrid_search store q 20 b) := by
  constructor
  · intro store q m
    simp only [RAGEngine.queryDocs]
    split
    · rfl
    · exact rerank_take_zero ⟨some m⟩ q _
  · intro store q b
    rfl

/-- Counterexample to claim C3: with the reranker Unavailable and top_k = 1,
the rank output is not the hybrid output truncated to top_k. -/
theorem claim_C3_counterexample :
    RAGEngine.queryDocs store2 ⟨none⟩ (chars "") 1 ≠
      (hybrid_search store2 (chars "") (1 * 2) (3 / 5)).take 1 := by
  norm_num [RAGEngine.queryDocs, hybrid_search, hybridTopK, store2, dA, dB,
    scoreDoc, extract_keywords, splitWs, splitWsAux, calculate_keyword_score,
    pySortDesc, insertDescBy, Option.getD, List.cons_ne_nil]

/-- Claim C3 (amended): with the reranker Unavailable, the rank output equals
the hybrid stage output for 2 * top_k — the hybrid order unchanged, truncated
only by the hybrid stage's own 2 * top_k cut, not to top_k. -/
theorem claim_C3_amended : ∀ (store : List Char → ℕ → List Doc)
    (q : List Char) (k : ℕ),
    RAGEngine.queryDocs store ⟨none⟩ q k = hybrid_search store q (k * 2) (3 / 5) := by
  intro store q k
  by_cases h : hybrid_search store q (k * 2) (3 / 5) = []
  · simp [RAGEngine.queryDocs, h]
  · simp [RAGEngine.queryDocs, h]

/-- Counterexample to claim C4: two stores that agree on a request of
2 * top_k candidates (top_k = 1, request 2) make rank produce different
results, so the orchestrator does not request 2 * top_k; it requests 4. -/
theorem claim_C4_counterexample :
    store4only (chars "") 2 = storeNone (chars "") 2 ∧
    RAGEngine.queryDocs store4only ⟨none⟩ (chars "") 1 ≠
      RAGEngine.queryDocs storeNone ⟨none⟩ (chars "") 1 := by
  constructor
  · rfl
  · norm_num [RAGEngine.queryDocs, hybrid_search, hybridTopK, store4only,
      storeNone, dA, scoreDoc, extract_keywords, splitWs, splitWsAux,
      calculate_keyword_score, pySortDesc, insertDescBy, Option.getD,
      List.cons_ne_nil]

/-- Claim C4 (amended): for a positive top_k the orchestrator requests
4 * top_k candidates from similarity_search (top_k is doubled once by
RAGEngine.query and once more by hybrid_search), and the rank output depends
on the store only through that one request. -/
theorem claim_C4_amended :
    (∀ k : ℕ, 1 ≤ k → rankFetchCount k = 4 * k) ∧
    (∀ (store store' : List Char → ℕ → List Doc) (r : ReRanker) (q : List Char)
        (k : ℕ), store q (rankFetchCount k) = store' q (rankFetchCount k) →
        RAGEngine.queryDocs store r q k = RAGEngine.queryDocs store' r q k) := by
  constructor
  · intro k hk
    rw [rankFetchCount, hybridTopK, if_pos (by omega)]
    omega
  · intro store store' r q k h
    rw [rankFetchCount] at h
    simp only [RAGEngine.queryDocs, hybrid_search]
    rw [h]

/-- Witness for claim C4 at concrete top_k and stores. -/
theorem claim_C4_witness :
    (1 ≤ 5 ∧ rankFetchCount 5 = 4 * 5) ∧
    RAGEngine.queryDocs store2 ⟨none⟩ (chars "") 3 =
      RAGEngine.queryDocs store2 ⟨none⟩ (chars "") 3 :=
  ⟨⟨by norm_num, claim_C4_amended.1 5 (by norm_num)⟩,
   claim_C4_amended.2 store2 store2 ⟨none⟩ (chars "") 3 rfl⟩

/-- Claim C7: if the cross-encoder inference fails on the pairs built for this
query, the whole rerank step is abandoned and the rank operation returns the
pre-rerank hybrid order truncated to top_k; the reranker value itself is
immutable, so its availability is untouched for later queries. -/
theorem claim_C7 : ∀ (store : List Char → ℕ → List Doc) (q : List Char)
    (k : ℕ) (m : CrossModel),
    m.predict ((hybrid_search store q (k * 2) (3 / 5)).map
      (fun d => (q, d.content.take 512))) = none →
    RAGEngine.queryDocs store ⟨some m⟩ q k =
      (hybrid_search store q (k * 2) (3 / 5)).take k := by
  intro store q k m hp
  by_cases h : hybrid_search store q (k * 2) (3 / 5) = []
  · simp [RAGEngine.queryDocs, h]
  · simp only [RAGEngine.queryDocs, if_neg h, ReRanker.rerank, hp]

/-- Witness for claim C7 with a model whose every inference call fails. -/
theorem claim_C7_witness :
    failModel.predict ((hybrid_search store2 (chars "") (1 * 2) (3 / 5)).map
      (fun d => (chars "", d.content.take 512))) = none ∧
    RAGEngine.queryDocs store2 ⟨some failModel⟩ (chars "") 1 =
      (hybrid_search store2 (chars "") (1 * 2) (3 / 5)).take 1 :=
  ⟨rfl, claim_C7 store2 (chars "") 1 failModel rfl⟩

/-- Counterexample to claim C8: a stored record whose embedding list contains
a non-numeric element makes the fallback scan raise; the whole scan aborts
(the well-formed record after it is never scored) instead of assigning the
record zero similarity and continuing. -/
theorem claim_C8_counterexample :
    scanResults [1] [badDoc, goodDoc] = .error () := rfl

/-- Claim C8 (amended): only a record whose embedding value is not a list at
all is treated as zero similarity, and for such a record the scan does
continue over the remaining records; a list embedding with a non-numeric
element aborts the scan instead. -/
theorem claim_C8_amended : ∀ (qe : List ℚ) (d : StoredDoc) (rest : List StoredDoc),
    d.embedding = some .nonList →
    scanResults qe (d :: rest) =
      Except.map (fun l => (d, (0 : ℝ)) :: l) (scanResults qe rest) := by
  intro qe d rest h
  simp only [scanResults, h, embTruthy, cosine_similarity, embList, if_true]
  cases hr : scanResults qe rest <;>
    simp [hr, Except.map, Except.bind, Bind.bind, pure, Except.pure]

/-- Witness for claim C8 at a concrete non-list embedding record. -/
theorem claim_C8_witness :
    nonListDoc.embedding = some .nonList ∧
    scanResults [1] [nonListDoc] = .ok [(nonListDoc, (0 : ℝ))] := by
  refine ⟨rfl, ?_⟩
  rw [claim_C8_amended [1] nonListDoc [] rfl]
  rfl
